import Mathlib

/-!
# Verification of the teaspoon interaction library

Shallow embedding of the teaspoon Go package (click.go, hover.go, drag.go,
drop.go, the dispatcher file defining `HandleMouseMsg`,
`DefaultLocalHandler`, `HandleExternalEvent`, `DefaultExternalHandler`, and
the interactable file defining the `Interactable` struct and
`DefaultIsInside`).

Modelling conventions, fixed once for the whole file:

* The Go `Interactable` record is split into the plain-data interaction
  state (`InteractionState`) and the configuration slots (capability
  handlers, event modules, override hooks).  `element.GetInteraction()`
  returns that one record in the Go code, so handlers are embedded as
  functions threading the record functionally.
* A Go `tea.Cmd` is a deferred closure producing a message when the host
  loop later executes it.  The closures in this code capture the
  interaction record by pointer and read its fields at execution time,
  while the mouse message / drag event arguments are captured by value.
  A command is therefore embedded as a function `InteractionState → Msg`
  from the interaction state as it stands at execution time; values the
  Go closure captured by value are baked into the closure.  A nil
  `tea.Cmd` is the empty list, `tea.Batch` is list concatenation, so every
  handler returns `InteractionState × List Cmd`.
* Custom override hooks are nilable Go function fields; they are embedded
  as `Option` of a total function over the interaction state.  Calling a
  nil Go function panics; a dispatch that can reach such a call returns
  `Option _`, with `none` as the panic branch.
* Struct fields the code never reads or writes (`lastClickTime`,
  `clickCount`, `doubleClickThreshold`, mouse button and modifiers) are
  omitted; they cannot influence any embedded function.
-/

/-- 2-D coordinate pair, from `Point` in drag.go. -/
structure Point where
  x : Int
  y : Int
deriving DecidableEq, Repr

/-- Mouse actions of `tea.MouseMsg` that the dispatcher switches on. -/
inductive MouseAction where
  | motion
  | press
  | release
deriving DecidableEq, Repr

/-- The fields of `tea.MouseMsg` the library reads: action and coordinates. -/
structure MouseMsg where
  action : MouseAction
  x : Int
  y : Int
deriving DecidableEq, Repr

/-- Click event kinds, from `ClickEventType` in click.go. -/
inductive ClickEventType where
  | click
  | doubleClick
  | rightClick
deriving DecidableEq, Repr

/-- Hover event kinds, from `HoverEventType` in hover.go. -/
inductive HoverEventType where
  | mouseEnter
  | mouseHover
  | mouseLeave
deriving DecidableEq, Repr

/-- Drag event kinds, from `DragEventType` in drag.go. -/
inductive DragEventType where
  | dragStart
  | dragMove
  | dragEnd
deriving DecidableEq, Repr

/-- Drop event kinds, from `DropEventType` in drop.go. -/
inductive DropEventType where
  | dropEnter
  | dropHover
  | dropLeave
  | dropRelease
  | dropAccept
  | dropDeny
deriving DecidableEq, Repr

/-- Semantic click event, from `ClickEvent` in click.go. -/
structure ClickEvent where
  id : String
  eventType : ClickEventType
  mouseMsg : MouseMsg
deriving DecidableEq, Repr

/-- Semantic hover event, from `HoverEvent` in hover.go. -/
structure HoverEvent where
  id : String
  eventType : HoverEventType
  mouseMsg : MouseMsg
deriving DecidableEq, Repr

/-- Semantic drag event, from `DragEvent` in drag.go. -/
structure DragEvent where
  id : String
  eventType : DragEventType
  dragType : String
  dragOrigin : Point
  dragOffset : Point
  mouseMsg : MouseMsg
deriving DecidableEq, Repr

/-- Semantic drop event, from `DropEvent` in drop.go. -/
structure DropEvent where
  id : String
  eventType : DropEventType
  dropType : String
  acceptable : Bool
  dragEvent : DragEvent
deriving DecidableEq, Repr

/-- A `tea.Msg`: either a raw mouse message or one of the semantic events
the library broadcasts (the cases `DefaultExternalHandler` switches on). -/
inductive Msg where
  | mouse (m : MouseMsg)
  | click (e : ClickEvent)
  | hover (e : HoverEvent)
  | drag (e : DragEvent)
  | drop (e : DropEvent)
deriving DecidableEq, Repr

/-- The mutable per-element interaction record: the data fields of the Go
`Interactable` struct that the handlers in src read or write. -/
structure InteractionState where
  id : String
  isSelected : Bool
  isHovered : Bool
  isDragging : Bool
  dragOrigin : Point
  dragOffset : Point
  isValidDrop : Bool
  isAboveDrop : Bool
  isBelowDrop : Bool
deriving DecidableEq, Repr

/-- A deferred `tea.Cmd`: executed by the host loop after the handler has
returned, it reads the interaction record as it stands at execution time. -/
abbrev Cmd := InteractionState → Msg

/-- Execution of a batch of deferred commands by the host loop at a given
interaction state: the list of messages they produce. -/
def runCmds (cs : List Cmd) (s : InteractionState) : List Msg :=
  cs.map (fun c => c s)

/-- A nilable Go hook field taking the element and a raw mouse message. -/
abbrev MouseHook := InteractionState → MouseMsg → InteractionState × List Cmd

/-- A nilable Go hook field taking the element and a drag event. -/
abbrev DragEventHook := InteractionState → DragEvent → InteractionState × List Cmd

/-- A nilable Go hook field taking the element and a drop event. -/
abbrev DropEventHook := InteractionState → DropEvent → InteractionState × List Cmd

/-- `DropHandler` from drop.go: local hooks, external-event hooks, the
acceptance predicate hook, the accepted drop types and the emit flag. -/
structure DropHandler where
  onDropEnter : Option DragEventHook
  onDropHover : Option DragEventHook
  onDropLeave : Option DragEventHook
  onDropRelease : Option DragEventHook
  onDropAccept : Option DragEventHook
  onDropDeny : Option DragEventHook
  isAcceptable : Option (InteractionState → DragEvent → Bool)
  onDropEnterEvent : Option DropEventHook
  onDropHoverEvent : Option DropEventHook
  onDropLeaveEvent : Option DropEventHook
  onDropReleaseEvent : Option DropEventHook
  onDropAcceptEvent : Option DropEventHook
  onDropDenyEvent : Option DropEventHook
  acceptedDropTypes : List String
  emitMessages : Bool

namespace DropHandler

/-- `DropHandler.DefaultIsAcceptable` (drop.go:99): loops over
`AcceptedDropTypes` and returns true on the first equal to `DragType`. -/
def DefaultIsAcceptable (h : DropHandler) (_s : InteractionState) (de : DragEvent) : Bool :=
  h.acceptedDropTypes.any (fun dropType => de.dragType == dropType)

/-- `DropHandler.HandleIsAcceptable` (drop.go:88): custom `IsAcceptable`
if set, else the default. -/
def HandleIsAcceptable (h : DropHandler) (s : InteractionState) (de : DragEvent) : Bool :=
  match h.isAcceptable with
  | some f => f s de
  | none => h.DefaultIsAcceptable s de

/-- `DropHandler.DefaultDropEnter` (drop.go:125): sets `IsBelowDrop`,
recomputes `IsValidDrop`, emits an enter event when `EmitMessages`. -/
def DefaultDropEnter (h : DropHandler) (s : InteractionState) (de : DragEvent) :
    InteractionState × List Cmd :=
  let s1 := { s with isBelowDrop := true }
  let s2 := { s1 with isValidDrop := h.HandleIsAcceptable s1 de }
  let cmds : List Cmd :=
    if h.emitMessages then
      [fun st => Msg.drop
        { eventType := DropEventType.dropEnter, id := st.id, dropType := ""
          acceptable := st.isValidDrop, dragEvent := de }]
    else []
  (s2, cmds)

/-- `DropHandler.HandleDropEnter` (drop.go:114). -/
def HandleDropEnter (h : DropHandler) (s : InteractionState) (de : DragEvent) :
    InteractionState × List Cmd :=
  match h.onDropEnter with
  | some f => f s de
  | none => h.DefaultDropEnter s de

/-- `DropHandler.DefaultDropHover` (drop.go:162): same state effect as the
enter default, hover-typed event. -/
def DefaultDropHover (h : DropHandler) (s : InteractionState) (de : DragEvent) :
    InteractionState × List Cmd :=
  let s1 := { s with isBelowDrop := true }
  let s2 := { s1 with isValidDrop := h.HandleIsAcceptable s1 de }
  let cmds : List Cmd :=
    if h.emitMessages then
      [fun st => Msg.drop
        { eventType := DropEventType.dropHover, id := st.id, dropType := ""
          acceptable := st.isValidDrop, dragEvent := de }]
    else []
  (s2, cmds)

/-- `DropHandler.HandleDropHover` (drop.go:151). -/
def HandleDropHover (h : DropHandler) (s : InteractionState) (de : DragEvent) :
    InteractionState × List Cmd :=
  match h.onDropHover with
  | some f => f s de
  | none => h.DefaultDropHover s de

/-- `DropHandler.DefaultDropLeave` (drop.go:199): clears `IsBelowDrop`,
builds the leave-event closure, then resets `IsValidDrop`.  The closure
reads `interaction.IsValidDrop` through the captured pointer, so the value
it reports is the one at command-execution time, after the reset. -/
def DefaultDropLeave (h : DropHandler) (s : InteractionState) (de : DragEvent) :
    InteractionState × List Cmd :=
  let s1 := { s with isBelowDrop := false }
  let cmds : List Cmd :=
    if h.emitMessages then
      [fun st => Msg.drop
        { eventType := DropEventType.dropLeave, id := st.id, dropType := ""
          acceptable := st.isValidDrop, dragEvent := de }]
    else []
  let s2 := { s1 with isValidDrop := false }
  (s2, cmds)

/-- `DropHandler.HandleDropLeave` (drop.go:188). -/
def HandleDropLeave (h : DropHandler) (s : InteractionState) (de : DragEvent) :
    InteractionState × List Cmd :=
  match h.onDropLeave with
  | some f => f s de
  | none => h.DefaultDropLeave s de

/-- `DropHandler.DefaultDropAccept` (drop.go:283): emits an accept event
with the literal `Acceptable: true`, then clears both drop flags. -/
def DefaultDropAccept (h : DropHandler) (s : InteractionState) (de : DragEvent) :
    InteractionState × List Cmd :=
  let cmds : List Cmd :=
    if h.emitMessages then
      [fun st => Msg.drop
        { eventType := DropEventType.dropAccept, id := st.id, dropType := ""
          acceptable := true, dragEvent := de }]
    else []
  let s1 := { s with isBelowDrop := false, isValidDrop := false }
  (s1, cmds)

/-- `DropHandler.HandleDropAccept` (drop.go:272). -/
def HandleDropAccept (h : DropHandler) (s : InteractionState) (de : DragEvent) :
    InteractionState × List Cmd :=
  match h.onDropAccept with
  | some f => f s de
  | none => h.DefaultDropAccept s de

/-- `DropHandler.DefaultDropDeny` (drop.go:322): emits a deny event with
the literal `Acceptable: false`, then clears both drop flags. -/
def DefaultDropDeny (h : DropHandler) (s : InteractionState) (de : DragEvent) :
    InteractionState × List Cmd :=
  let cmds : List Cmd :=
    if h.emitMessages then
      [fun st => Msg.drop
        { eventType := DropEventType.dropDeny, id := st.id, dropType := ""
          acceptable := false, dragEvent := de }]
    else []
  let s1 := { s with isBelowDrop := false, isValidDrop := false }
  (s1, cmds)

/-- `DropHandler.HandleDropDeny` (drop.go:311). -/
def HandleDropDeny (h : DropHandler) (s : InteractionState) (de : DragEvent) :
    InteractionState × List Cmd :=
  match h.onDropDeny with
  | some f => f s de
  | none => h.DefaultDropDeny s de

/-- `DropHandler.DefaultDropRelease` (drop.go:239): recomputes
`IsValidDrop`, emits a release event, then dispatches synchronously to the
accept handler when valid, the deny handler otherwise; the returned command
batches the release emission with the follow-on handler's command. -/
def DefaultDropRelease (h : DropHandler) (s : InteractionState) (de : DragEvent) :
    InteractionState × List Cmd :=
  let s1 := { s with isValidDrop := h.HandleIsAcceptable s de }
  let cmds : List Cmd :=
    if h.emitMessages then
      [fun st => Msg.drop
        { eventType := DropEventType.dropRelease, id := st.id, dropType := ""
          acceptable := st.isValidDrop, dragEvent := de }]
    else []
  let r :=
    if s1.isValidDrop then h.HandleDropAccept s1 de
    else h.HandleDropDeny s1 de
  (r.1, cmds ++ r.2)

/-- `DropHandler.HandleDropRelease` (drop.go:227). -/
def HandleDropRelease (h : DropHandler) (s : InteractionState) (de : DragEvent) :
    InteractionState × List Cmd :=
  match h.onDropRelease with
  | some f => f s de
  | none => h.DefaultDropRelease s de

/-- `DropHandler.HandleDropEnterEvent` (drop.go:365): custom
`OnDropEnterEvent` if set, otherwise returns the element unchanged with no
command — it does not call `DefaultDropEnterEvent`. -/
def HandleDropEnterEvent (h : DropHandler) (s : InteractionState) (ev : DropEvent) :
    InteractionState × List Cmd :=
  match h.onDropEnterEvent with
  | some f => f s ev
  | none => (s, [])

/-- `DropHandler.DefaultDropEnterEvent` (drop.go:376): sets `IsAboveDrop`
and mirrors the event's `Acceptable` into `IsValidDrop`.  No call site in
the package reaches this function. -/
def DefaultDropEnterEvent (_h : DropHandler) (s : InteractionState) (ev : DropEvent) :
    InteractionState × List Cmd :=
  ({ s with isAboveDrop := true, isValidDrop := ev.acceptable }, [])

/-- `DropHandler.DefaultDropHoverEvent` (drop.go:403): sets `IsAboveDrop`
and mirrors the event's `Acceptable` into `IsValidDrop`. -/
def DefaultDropHoverEvent (_h : DropHandler) (s : InteractionState) (ev : DropEvent) :
    InteractionState × List Cmd :=
  ({ s with isAboveDrop := true, isValidDrop := ev.acceptable }, [])

/-- `DropHandler.HandleDropHoverEvent` (drop.go:392): the guard tests
`OnDropEnterEvent` but the branch calls `OnDropHoverEvent`; when the latter
is nil the call panics (`none`). -/
def HandleDropHoverEvent (h : DropHandler) (s : InteractionState) (ev : DropEvent) :
    Option (InteractionState × List Cmd) :=
  if h.onDropEnterEvent.isSome then
    match h.onDropHoverEvent with
    | some f => some (f s ev)
    | none => none
  else
    some (h.DefaultDropHoverEvent s ev)

/-- `DropHandler.DefaultDropLeaveEvent` (drop.go:430): clears `IsAboveDrop`
and sets `IsValidDrop` to the event's `Acceptable` value. -/
def DefaultDropLeaveEvent (_h : DropHandler) (s : InteractionState) (ev : DropEvent) :
    InteractionState × List Cmd :=
  ({ s with isAboveDrop := false, isValidDrop := ev.acceptable }, [])

/-- `DropHandler.HandleDropLeaveEvent` (drop.go:419). -/
def HandleDropLeaveEvent (h : DropHandler) (s : InteractionState) (ev : DropEvent) :
    InteractionState × List Cmd :=
  match h.onDropLeaveEvent with
  | some f => f s ev
  | none => h.DefaultDropLeaveEvent s ev

/-- `DropHandler.DefaultDropReleaseEvent` (drop.go:457): clears
`IsAboveDrop` and `IsValidDrop`. -/
def DefaultDropReleaseEvent (_h : DropHandler) (s : InteractionState) (_ev : DropEvent) :
    InteractionState × List Cmd :=
  ({ s with isAboveDrop := false, isValidDrop := false }, [])

/-- `DropHandler.HandleDropReleaseEvent` (drop.go:446). -/
def HandleDropReleaseEvent (h : DropHandler) (s : InteractionState) (ev : DropEvent) :
    InteractionState × List Cmd :=
  match h.onDropReleaseEvent with
  | some f => f s ev
  | none => h.DefaultDropReleaseEvent s ev

/-- `DropHandler.DefaultDropAcceptEvent` (drop.go:483): clears
`IsAboveDrop` and `IsValidDrop`. -/
def DefaultDropAcceptEvent (_h : DropHandler) (s : InteractionState) (_ev : DropEvent) :
    InteractionState × List Cmd :=
  ({ s with isAboveDrop := false, isValidDrop := false }, [])

/-- `DropHandler.HandleDropAcceptEvent` (drop.go:472). -/
def HandleDropAcceptEvent (h : DropHandler) (s : InteractionState) (ev : DropEvent) :
    InteractionState × List Cmd :=
  match h.onDropAcceptEvent with
  | some f => f s ev
  | none => h.DefaultDropAcceptEvent s ev

/-- `DropHandler.DefaultDropDenyEvent` (drop.go:509): clears `IsAboveDrop`
and `IsValidDrop`. -/
def DefaultDropDenyEvent (_h : DropHandler) (s : InteractionState) (_ev : DropEvent) :
    InteractionState × List Cmd :=
  ({ s with isAboveDrop := false, isValidDrop := false }, [])

/-- `DropHandler.HandleDropDenyEvent` (drop.go:498). -/
def HandleDropDenyEvent (h : DropHandler) (s : InteractionState) (ev : DropEvent) :
    InteractionState × List Cmd :=
  match h.onDropDenyEvent with
  | some f => f s ev
  | none => h.DefaultDropDenyEvent s ev

end DropHandler

/-- A `DropHandler` with every hook nil, matching the Go zero value
`&DropHandler{...}` with only the listed fields populated. -/
def mkDropHandler (accepted : List String) (emit : Bool) : DropHandler :=
  { onDropEnter := none, onDropHover := none, onDropLeave := none
    onDropRelease := none, onDropAccept := none, onDropDeny := none
    isAcceptable := none
    onDropEnterEvent := none, onDropHoverEvent := none, onDropLeaveEvent := none
    onDropReleaseEvent := none, onDropAcceptEvent := none, onDropDenyEvent := none
    acceptedDropTypes := accepted, emitMessages := emit }

/-- Interaction state with all flags clear, matching the Go zero value. -/
def zeroState (ident : String) : InteractionState :=
  { id := ident, isSelected := false, isHovered := false, isDragging := false
    dragOrigin := ⟨0, 0⟩, dragOffset := ⟨0, 0⟩
    isValidDrop := false, isAboveDrop := false, isBelowDrop := false }

/-- A concrete drag event used in closed statements. -/
def sampleDrag (ty : String) : DragEvent :=
  { id := "src", eventType := DragEventType.dragEnd, dragType := ty
    dragOrigin := ⟨1, 2⟩, dragOffset := ⟨3, 4⟩
    mouseMsg := { action := MouseAction.release, x := 4, y := 6 } }

/-- A concrete drop event used in closed statements. -/
def sampleDrop (ty : DropEventType) (acc : Bool) : DropEvent :=
  { id := "tgt", eventType := ty, dropType := "", acceptable := acc
    dragEvent := sampleDrag "file" }

/-- Hook used in closed statements: marks the element selected, an effect
none of the default drop-event behaviors has. -/
def markSelectedHook : DropEventHook :=
  fun s _ => ({ s with isSelected := true }, [])

/-- Drop handler whose only custom hook is `onDropEnterEvent`. -/
def dropHandlerEnterEventOnly : DropHandler :=
  { mkDropHandler [] false with onDropEnterEvent := some markSelectedHook }

/-- Drop handler whose only custom hook is `onDropHoverEvent`. -/
def dropHandlerHoverEventOnly : DropHandler :=
  { mkDropHandler [] false with onDropHoverEvent := some markSelectedHook }

/-- Drop handler with default behaviors and message emission enabled. -/
def dropHandlerEmit : DropHandler := mkDropHandler ["file"] true

/-- Target state that is below an acceptable drag, as after a drop-enter. -/
def belowValidState : InteractionState :=
  { zeroState "tgt" with isBelowDrop := true, isValidDrop := true }

/-- Message predicate: is this a drop event of accept kind. -/
def isDropAcceptMsg : Msg → Bool
  | Msg.drop e => e.eventType == DropEventType.dropAccept
  | _ => false

/-- Message predicate: is this a drop event of deny kind. -/
def isDropDenyMsg : Msg → Bool
  | Msg.drop e => e.eventType == DropEventType.dropDeny
  | _ => false

/-- `ClickHandler` from click.go: local hooks, external-event hooks (which
in click.go take a raw mouse message) and the emit flag. -/
structure ClickHandler where
  onClick : Option MouseHook
  onDoubleClick : Option MouseHook
  onRightClick : Option MouseHook
  onClickEvent : Option MouseHook
  onDoubleClickEvent : Option MouseHook
  onRightClickEvent : Option MouseHook
  emitMessages : Bool

namespace ClickHandler

/-- `ClickHandler.DefaultClick` (click.go:81): marks the element selected
and emits a click event when `EmitMessages`. -/
def DefaultClick (h : ClickHandler) (s : InteractionState) (m : MouseMsg) :
    InteractionState × List Cmd :=
  let s1 := { s with isSelected := true }
  let cmds : List Cmd :=
    if h.emitMessages then
      [fun st => Msg.click { eventType := ClickEventType.click, id := st.id, mouseMsg := m }]
    else []
  (s1, cmds)

/-- `ClickHandler.HandleClick` (click.go:70). -/
def HandleClick (h : ClickHandler) (s : InteractionState) (m : MouseMsg) :
    InteractionState × List Cmd :=
  match h.onClick with
  | some f => f s m
  | none => h.DefaultClick s m

end ClickHandler

/-- `HoverHandler` from hover.go. -/
structure HoverHandler where
  onMouseEnter : Option MouseHook
  onMouseHover : Option MouseHook
  onMouseLeave : Option MouseHook
  onMouseEnterEvent : Option (InteractionState → HoverEvent → InteractionState × List Cmd)
  onMouseHoverEvent : Option (InteractionState → HoverEvent → InteractionState × List Cmd)
  onMouseLeaveEvent : Option (InteractionState → HoverEvent → InteractionState × List Cmd)
  emitMessages : Bool

namespace HoverHandler

/-- `HoverHandler.DefaultMouseEnter` (hover.go:81): sets `IsHovered` and
emits an enter event when `EmitMessages`. -/
def DefaultMouseEnter (h : HoverHandler) (s : InteractionState) (m : MouseMsg) :
    InteractionState × List Cmd :=
  let s1 := { s with isHovered := true }
  let cmds : List Cmd :=
    if h.emitMessages then
      [fun st => Msg.hover { eventType := HoverEventType.mouseEnter, id := st.id, mouseMsg := m }]
    else []
  (s1, cmds)

/-- `HoverHandler.HandleMouseEnter` (hover.go:70). -/
def HandleMouseEnter (h : HoverHandler) (s : InteractionState) (m : MouseMsg) :
    InteractionState × List Cmd :=
  match h.onMouseEnter with
  | some f => f s m
  | none => h.DefaultMouseEnter s m

/-- `HoverHandler.DefaultMouseHover` (hover.go:115): sets `IsHovered` and
emits a hover event when `EmitMessages`. -/
def DefaultMouseHover (h : HoverHandler) (s : InteractionState) (m : MouseMsg) :
    InteractionState × List Cmd :=
  let s1 := { s with isHovered := true }
  let cmds : List Cmd :=
    if h.emitMessages then
      [fun st => Msg.hover { eventType := HoverEventType.mouseHover, id := st.id, mouseMsg := m }]
    else []
  (s1, cmds)

/-- `HoverHandler.HandleMouseHover` (hover.go:104). -/
def HandleMouseHover (h : HoverHandler) (s : InteractionState) (m : MouseMsg) :
    InteractionState × List Cmd :=
  match h.onMouseHover with
  | some f => f s m
  | none => h.DefaultMouseHover s m

/-- `HoverHandler.DefaultMouseLeave` (hover.go:149): clears `IsHovered` and
emits a leave event when `EmitMessages`. -/
def DefaultMouseLeave (h : HoverHandler) (s : InteractionState) (m : MouseMsg) :
    InteractionState × List Cmd :=
  let s1 := { s with isHovered := false }
  let cmds : List Cmd :=
    if h.emitMessages then
      [fun st => Msg.hover { eventType := HoverEventType.mouseLeave, id := st.id, mouseMsg := m }]
    else []
  (s1, cmds)

/-- `HoverHandler.HandleMouseLeave` (hover.go:138). -/
def HandleMouseLeave (h : HoverHandler) (s : InteractionState) (m : MouseMsg) :
    InteractionState × List Cmd :=
  match h.onMouseLeave with
  | some f => f s m
  | none => h.DefaultMouseLeave s m

end HoverHandler

/-- `DragHandler` from drag.go. -/
structure DragHandler where
  onDragStart : Option MouseHook
  onDragMove : Option MouseHook
  onDragEnd : Option MouseHook
  onDragStartEvent : Option DragEventHook
  onDragMoveEvent : Option DragEventHook
  onDragEndEvent : Option DragEventHook
  emitMessages : Bool

namespace DragHandler

/-- `DragHandler.DefaultDragStart` (drag.go:94): sets `IsDragging`, records
`DragOrigin` from the press coordinates, zeroes `DragOffset`, and emits a
start event (whose origin and offset fields are read through the captured
pointer) when `EmitMessages`. -/
def DefaultDragStart (h : DragHandler) (s : InteractionState) (m : MouseMsg) :
    InteractionState × List Cmd :=
  let s1 := { s with isDragging := true, dragOrigin := (⟨m.x, m.y⟩ : Point)
                     dragOffset := (⟨0, 0⟩ : Point) }
  let cmds : List Cmd :=
    if h.emitMessages then
      [fun st => Msg.drag
        { eventType := DragEventType.dragStart, id := st.id, dragType := ""
          dragOrigin := st.dragOrigin, dragOffset := st.dragOffset, mouseMsg := m }]
    else []
  (s1, cmds)

/-- `DragHandler.HandleDragStart` (drag.go:83); its unused `dragEvent`
parameter is dropped. -/
def HandleDragStart (h : DragHandler) (s : InteractionState) (m : MouseMsg) :
    InteractionState × List Cmd :=
  match h.onDragStart with
  | some f => f s m
  | none => h.DefaultDragStart s m

/-- `DragHandler.DefaultDragMove` (drag.go:133): keeps `IsDragging`,
recomputes `DragOffset` as current position minus origin, and emits a move
event when `EmitMessages`. -/
def DefaultDragMove (h : DragHandler) (s : InteractionState) (m : MouseMsg) :
    InteractionState × List Cmd :=
  let s1 := { s with isDragging := true
                     dragOffset := (⟨m.x - s.dragOrigin.x, m.y - s.dragOrigin.y⟩ : Point) }
  let cmds : List Cmd :=
    if h.emitMessages then
      [fun st => Msg.drag
        { eventType := DragEventType.dragMove, id := st.id, dragType := ""
          dragOrigin := st.dragOrigin, dragOffset := st.dragOffset, mouseMsg := m }]
    else []
  (s1, cmds)

/-- `DragHandler.HandleDragMove` (drag.go:122); its unused `dragEvent`
parameter is dropped. -/
def HandleDragMove (h : DragHandler) (s : InteractionState) (m : MouseMsg) :
    InteractionState × List Cmd :=
  match h.onDragMove with
  | some f => f s m
  | none => h.DefaultDragMove s m

/-- `DragHandler.DefaultDragEnd` (drag.go:174): clears `IsDragging` and
emits an end event when `EmitMessages`. -/
def DefaultDragEnd (h : DragHandler) (s : InteractionState) (m : MouseMsg) :
    InteractionState × List Cmd :=
  let s1 := { s with isDragging := false }
  let cmds : List Cmd :=
    if h.emitMessages then
      [fun st => Msg.drag
        { eventType := DragEventType.dragEnd, id := st.id, dragType := ""
          dragOrigin := st.dragOrigin, dragOffset := st.dragOffset, mouseMsg := m }]
    else []
  (s1, cmds)

/-- `DragHandler.HandleDragEnd` (drag.go:163); its unused `dragEvent`
parameter is dropped. -/
def HandleDragEnd (h : DragHandler) (s : InteractionState) (m : MouseMsg) :
    InteractionState × List Cmd :=
  match h.onDragEnd with
  | some f => f s m
  | none => h.DefaultDragEnd s m

end DragHandler

/-- An implementor of the `ClickEventAware` interface, as the dispatcher's
`ClickEvent` branch requires: three total methods over a click event. -/
structure ClickEventModule where
  handleClickEvent : InteractionState → ClickEvent → InteractionState × List Cmd
  handleDoubleClickEvent : InteractionState → ClickEvent → InteractionState × List Cmd
  handleRightClickEvent : InteractionState → ClickEvent → InteractionState × List Cmd

/-- An implementor of the `HoverEventAware` interface. -/
structure HoverEventModule where
  handleMouseEnterEvent : InteractionState → HoverEvent → InteractionState × List Cmd
  handleMouseHoverEvent : InteractionState → HoverEvent → InteractionState × List Cmd
  handleMouseLeaveEvent : InteractionState → HoverEvent → InteractionState × List Cmd

/-- An implementor of the `DragEventAware` interface. -/
structure DragEventModule where
  handleDragStartEvent : InteractionState → DragEvent → InteractionState × List Cmd
  handleDragMoveEvent : InteractionState → DragEvent → InteractionState × List Cmd
  handleDragEndEvent : InteractionState → DragEvent → InteractionState × List Cmd

/-- The Go `Interactable` struct (interactable source file): the
interaction-state record together with the capability slots (nil means
disabled, each typed by its in-repo implementor), event-awareness slots
(the drop slot typed by its in-repo implementor `DropHandler`) and the
override hooks. -/
structure Interactable where
  state : InteractionState
  click : Option ClickHandler
  hover : Option HoverHandler
  drag : Option DragHandler
  drop : Option DropHandler
  clickEvent : Option ClickEventModule
  hoverEvent : Option HoverEventModule
  dragEvent : Option DragEventModule
  dropEvent : Option DropHandler
  isInside : Option (InteractionState → MouseMsg → Bool)
  localHandler : Option MouseHook
  externalHandler : Option MouseHook

namespace Interactable

/-- `Interactable.DefaultIsInside` (interactable source file):
`return zone.Get(i.ID).InBounds(mouseMsg)`.  The spatial-zone registry
lives in the external bubblezone package, so the embedding takes the
composite lookup `fun ident msg => zone.Get(ident).InBounds(msg)` as the
explicit parameter `zone`, applied to the element's ID and the message
exactly as the source does. -/
def DefaultIsInside (zone : String → MouseMsg → Bool) (i : Interactable) (m : MouseMsg) :
    Bool :=
  zone i.state.id m

/-- The bounds test computed at the top of `DefaultLocalHandler`: the
custom `IsInside` override if set, else `DefaultIsInside`. -/
def insideOf (zone : String → MouseMsg → Bool) (i : Interactable) (m : MouseMsg) : Bool :=
  match i.isInside with
  | some f => f i.state m
  | none => i.DefaultIsInside zone m

/-- `Interactable.DefaultLocalHandler` (dispatcher file, lines 24-101):
no-op when no capability is configured; otherwise computes the bounds test
once and branches on the pointer action.  Motion runs the hover
enter/hover/leave logic then drag-move; press runs click then chains into
drag-start, setting `IsDragging` before the drag handler runs; release
clears `IsDragging` and runs drag-end.  The trailing
`*interaction = *i` writes the receiver back into the element's record,
which is that same record, so it is the identity here. -/
def DefaultLocalHandler (zone : String → MouseMsg → Bool) (i : Interactable) (m : MouseMsg) :
    Interactable × List Cmd :=
  if i.click.isNone && i.hover.isNone && i.drag.isNone && i.drop.isNone then
    (i, [])
  else
    let isInside := insideOf zone i m
    match m.action with
    | MouseAction.motion =>
      let r1 : Interactable × List Cmd :=
        match i.hover with
        | some hh =>
          if isInside then
            let r2 : Interactable × List Cmd :=
              if !i.state.isHovered then
                let r := hh.HandleMouseEnter i.state m
                ({ i with state := r.1 }, r.2)
              else (i, [])
            let r3 := hh.HandleMouseHover r2.1.state m
            ({ r2.1 with state := r3.1 }, r2.2 ++ r3.2)
          else if i.state.isHovered then
            let r := hh.HandleMouseLeave i.state m
            ({ i with state := r.1 }, r.2)
          else (i, [])
        | none => (i, [])
      match r1.1.drag with
      | some dh =>
        if r1.1.state.isDragging then
          let r := dh.HandleDragMove r1.1.state m
          ({ r1.1 with state := r.1 }, r1.2 ++ r.2)
        else r1
      | none => r1
    | MouseAction.press =>
      match i.click with
      | some ch =>
        if isInside then
          let r := ch.HandleClick i.state m
          let i1 : Interactable := { i with state := r.1 }
          match i1.drag with
          | some dh =>
            let i2 : Interactable := { i1 with state := { i1.state with isDragging := true } }
            let r2 := dh.HandleDragStart i2.state m
            ({ i2 with state := r2.1 }, r.2 ++ r2.2)
          | none => (i1, r.2)
        else (i, [])
      | none => (i, [])
    | MouseAction.release =>
      match i.drag with
      | some dh =>
        if i.state.isDragging then
          let i1 : Interactable := { i with state := { i.state with isDragging := false } }
          let r := dh.HandleDragEnd i1.state m
          ({ i1 with state := r.1 }, r.2)
        else (i, [])
      | none => (i, [])

/-- `Interactable.HandleMouseMsg` (dispatcher file, lines 13-18): the
`LocalHandler` override if set, else `DefaultLocalHandler`. -/
def HandleMouseMsg (zone : String → MouseMsg → Bool) (i : Interactable) (m : MouseMsg) :
    Interactable × List Cmd :=
  match i.localHandler with
  | some f =>
    let r := f i.state m
    ({ i with state := r.1 }, r.2)
  | none => i.DefaultLocalHandler zone m

/-- `Interactable.DefaultExternalHandler` (dispatcher file, lines
120-198): no-op when no event-awareness slot is bound; otherwise
type-switches the semantic event category and sub-dispatches on the
event's kind.  A raw mouse message matches no category.  The drop-hover
arm inherits the possible nil call of `HandleDropHoverEvent`. -/
def DefaultExternalHandler (i : Interactable) (msg : Msg) :
    Option (Interactable × List Cmd) :=
  if i.clickEvent.isNone && i.hoverEvent.isNone && i.dragEvent.isNone && i.dropEvent.isNone then
    some (i, [])
  else
    match msg with
    | Msg.mouse _ => some (i, [])
    | Msg.click ev =>
      match i.clickEvent with
      | some md =>
        let r :=
          match ev.eventType with
          | ClickEventType.click => md.handleClickEvent i.state ev
          | ClickEventType.doubleClick => md.handleDoubleClickEvent i.state ev
          | ClickEventType.rightClick => md.handleRightClickEvent i.state ev
        some ({ i with state := r.1 }, r.2)
      | none => some (i, [])
    | Msg.hover ev =>
      match i.hoverEvent with
      | some md =>
        let r :=
          match ev.eventType with
          | HoverEventType.mouseEnter => md.handleMouseEnterEvent i.state ev
          | HoverEventType.mouseHover => md.handleMouseHoverEvent i.state ev
          | HoverEventType.mouseLeave => md.handleMouseLeaveEvent i.state ev
        some ({ i with state := r.1 }, r.2)
      | none => some (i, [])
    | Msg.drag ev =>
      match i.dragEvent with
      | some md =>
        let r :=
          match ev.eventType with
          | DragEventType.dragStart => md.handleDragStartEvent i.state ev
          | DragEventType.dragMove => md.handleDragMoveEvent i.state ev
          | DragEventType.dragEnd => md.handleDragEndEvent i.state ev
        some ({ i with state := r.1 }, r.2)
      | none => some (i, [])
    | Msg.drop ev =>
      match i.dropEvent with
      | some dh =>
        match ev.eventType with
        | DropEventType.dropEnter =>
          let r := dh.HandleDropEnterEvent i.state ev
          some ({ i with state := r.1 }, r.2)
        | DropEventType.dropHover =>
          match dh.HandleDropHoverEvent i.state ev with
          | some r => some ({ i with state := r.1 }, r.2)
          | none => none
        | DropEventType.dropLeave =>
          let r := dh.HandleDropLeaveEvent i.state ev
          some ({ i with state := r.1 }, r.2)
        | DropEventType.dropRelease =>
          let r := dh.HandleDropReleaseEvent i.state ev
          some ({ i with state := r.1 }, r.2)
        | DropEventType.dropAccept =>
          let r := dh.HandleDropAcceptEvent i.state ev
          some ({ i with state := r.1 }, r.2)
        | DropEventType.dropDeny =>
          let r := dh.HandleDropDenyEvent i.state ev
          some ({ i with state := r.1 }, r.2)
      | none => some (i, [])

/-- `Interactable.HandleExternalEvent` (dispatcher file, lines 109-114):
the guard tests `LocalHandler` but the branch calls `ExternalHandler`;
when `ExternalHandler` is nil that call panics (`none`).  The default
branch receives the raw mouse message as the `tea.Msg` argument. -/
def HandleExternalEvent (i : Interactable) (m : MouseMsg) :
    Option (Interactable × List Cmd) :=
  if i.localHandler.isSome then
    match i.externalHandler with
    | some f =>
      let r := f i.state m
      some ({ i with state := r.1 }, r.2)
    | none => none
  else
    i.DefaultExternalHandler (Msg.mouse m)

end Interactable

/-- A `ClickHandler` with every hook nil, as the Go zero value. -/
def mkClickHandler (emit : Bool) : ClickHandler :=
  { onClick := none, onDoubleClick := none, onRightClick := none
    onClickEvent := none, onDoubleClickEvent := none, onRightClickEvent := none
    emitMessages := emit }

/-- A `HoverHandler` with every hook nil, as the Go zero value. -/
def mkHoverHandler (emit : Bool) : HoverHandler :=
  { onMouseEnter := none, onMouseHover := none, onMouseLeave := none
    onMouseEnterEvent := none, onMouseHoverEvent := none, onMouseLeaveEvent := none
    emitMessages := emit }

/-- A `DragHandler` with every hook nil, as the Go zero value. -/
def mkDragHandler (emit : Bool) : DragHandler :=
  { onDragStart := none, onDragMove := none, onDragEnd := none
    onDragStartEvent := none, onDragMoveEvent := none, onDragEndEvent := none
    emitMessages := emit }

/-- An `Interactable` with the given state and every slot nil. -/
def mkInteractable (s : InteractionState) : Interactable :=
  { state := s, click := none, hover := none, drag := none, drop := none
    clickEvent := none, hoverEvent := none, dragEvent := none, dropEvent := none
    isInside := none, localHandler := none, externalHandler := none }

/-- Hook used in closed statements about the override slots: marks the
element selected. -/
def markSelectedMouseHook : MouseHook :=
  fun s _ => ({ s with isSelected := true }, [])

/-- Element whose only override hook is `ExternalHandler`. -/
def externalOnlyElement : Interactable :=
  { mkInteractable (zeroState "e") with externalHandler := some markSelectedMouseHook }

/-- Element whose only override hook is `LocalHandler`. -/
def localOnlyElement : Interactable :=
  { mkInteractable (zeroState "e") with localHandler := some markSelectedMouseHook }

/-- A concrete mouse press message. -/
def samplePress : MouseMsg := { action := MouseAction.press, x := 2, y := 3 }

/-- Concrete element for the C6 witness: click and drag configured. -/
def clickDragElement : Interactable :=
  { mkInteractable (zeroState "b") with
      click := some (mkClickHandler false), drag := some (mkDragHandler false) }

/-- Concrete element for the C7 witness: drag configured, drag open. -/
def draggingElement : Interactable :=
  { mkInteractable { zeroState "c" with isDragging := true } with
      drag := some (mkDragHandler false) }

/-- Concrete element for the C9 witness: hover configured with emission,
already hovered. -/
def hoveredElement : Interactable :=
  { mkInteractable { zeroState "h" with isHovered := true } with
      hover := some (mkHoverHandler true) }

/-- A concrete mouse motion message. -/
def sampleMotion : MouseMsg := { action := MouseAction.motion, x := 1, y := 1 }

/-- C8: with no custom `IsAcceptable`, the acceptance predicate returns
true exactly when the event's `DragType` is a member of
`AcceptedDropTypes`; with an empty list it is always false. -/
theorem default_is_acceptable_membership (h : DropHandler) (s : InteractionState)
    (de : DragEvent) (hnil : h.isAcceptable = none) :
    (DropHandler.HandleIsAcceptable h s de = true ↔
      de.dragType ∈ h.acceptedDropTypes) ∧
    (h.acceptedDropTypes = [] → DropHandler.HandleIsAcceptable h s de = false) := by
  unfold DropHandler.HandleIsAcceptable
  rw [hnil]
  unfold DropHandler.DefaultIsAcceptable
  constructor
  · simp only [List.any_eq_true, beq_iff_eq]
    constructor
    · rintro ⟨x, hx, he⟩
      rw [he]
      exact hx
    · intro hx
      exact ⟨de.dragType, hx, rfl⟩
  · intro he
    simp [he]

/-- Witness for C8 at a concrete handler and drag event. -/
theorem default_is_acceptable_membership_witness :
    (mkDropHandler ["file", "image"] false).isAcceptable = none ∧
    ((DropHandler.HandleIsAcceptable (mkDropHandler ["file", "image"] false)
        (zeroState "a") (sampleDrag "file") = true ↔
      (sampleDrag "file").dragType ∈ (mkDropHandler ["file", "image"] false).acceptedDropTypes) ∧
     ((mkDropHandler ["file", "image"] false).acceptedDropTypes = [] →
      DropHandler.HandleIsAcceptable (mkDropHandler ["file", "image"] false)
        (zeroState "a") (sampleDrag "file") = false)) :=
  ⟨rfl, default_is_acceptable_membership _ _ _ rfl⟩

/-- C2: evaluation of the default drop-leave at a state whose validity flag
is set, with emission enabled.  The state parts of the claim hold
(`isBelowDrop` and `isValidDrop` both end false), but the emitted leave
event, executed by the host after the handler has returned, reads the
interaction record through the captured pointer and reports
`Acceptable = false` — the post-reset value, not the pre-reset `true` the
spec describes. -/
theorem drop_leave_emits_post_reset_validity :
    belowValidState.isValidDrop = true ∧
    (DropHandler.HandleDropLeave dropHandlerEmit belowValidState (sampleDrag "file")).1.isBelowDrop = false ∧
    (DropHandler.HandleDropLeave dropHandlerEmit belowValidState (sampleDrag "file")).1.isValidDrop = false ∧
    runCmds (DropHandler.HandleDropLeave dropHandlerEmit belowValidState (sampleDrag "file")).2
        (DropHandler.HandleDropLeave dropHandlerEmit belowValidState (sampleDrag "file")).1 =
      [Msg.drop { eventType := DropEventType.dropLeave, id := "tgt", dropType := ""
                  acceptable := false, dragEvent := sampleDrag "file" }] :=
  ⟨rfl, rfl, rfl, rfl⟩

/-- C3: with no custom external-event hooks, `HandleDropEnterEvent` returns
the element unchanged — it never reaches `DefaultDropEnterEvent`, which
would have set `isAboveDrop` and mirrored the event's `Acceptable` value as
the claim describes. -/
theorem drop_enter_event_default_unreachable :
    DropHandler.HandleDropEnterEvent (mkDropHandler ["file"] false) (zeroState "src")
        (sampleDrop DropEventType.dropEnter true) = (zeroState "src", []) ∧
    (DropHandler.HandleDropEnterEvent (mkDropHandler ["file"] false) (zeroState "src")
        (sampleDrop DropEventType.dropEnter true)).1.isAboveDrop = false ∧
    (DropHandler.DefaultDropEnterEvent (mkDropHandler ["file"] false) (zeroState "src")
        (sampleDrop DropEventType.dropEnter true)).1.isAboveDrop = true ∧
    (DropHandler.DefaultDropEnterEvent (mkDropHandler ["file"] false) (zeroState "src")
        (sampleDrop DropEventType.dropEnter true)).1.isValidDrop = true :=
  ⟨rfl, rfl, rfl, rfl⟩

/-- C4 counterexample: an external drop-leave event with `Acceptable = true`
leaves `isValidDrop = true` under the default behavior, not `false` as the
claim states. -/
theorem drop_leave_event_mirrors_acceptable :
    (DropHandler.HandleDropLeaveEvent (mkDropHandler [] false) (zeroState "src")
        (sampleDrop DropEventType.dropLeave true)).1.isValidDrop = true := rfl

/-- C4 amended: with no custom external-event hooks, the external release,
accept and deny defaults clear both `isAboveDrop` and `isValidDrop`
regardless of the event's `Acceptable` value; the external leave default
clears `isAboveDrop` but sets `isValidDrop` to the event's `Acceptable`
value. -/
theorem drop_event_terminal_defaults (h : DropHandler) (s : InteractionState)
    (ev : DropEvent)
    (hl : h.onDropLeaveEvent = none) (hr : h.onDropReleaseEvent = none)
    (ha : h.onDropAcceptEvent = none) (hd : h.onDropDenyEvent = none) :
    ((DropHandler.HandleDropLeaveEvent h s ev).1.isAboveDrop = false ∧
     (DropHandler.HandleDropLeaveEvent h s ev).1.isValidDrop = ev.acceptable) ∧
    ((DropHandler.HandleDropReleaseEvent h s ev).1.isAboveDrop = false ∧
     (DropHandler.HandleDropReleaseEvent h s ev).1.isValidDrop = false) ∧
    ((DropHandler.HandleDropAcceptEvent h s ev).1.isAboveDrop = false ∧
     (DropHandler.HandleDropAcceptEvent h s ev).1.isValidDrop = false) ∧
    ((DropHandler.HandleDropDenyEvent h s ev).1.isAboveDrop = false ∧
     (DropHandler.HandleDropDenyEvent h s ev).1.isValidDrop = false) := by
  simp [DropHandler.HandleDropLeaveEvent, DropHandler.HandleDropReleaseEvent,
    DropHandler.HandleDropAcceptEvent, DropHandler.HandleDropDenyEvent,
    hl, hr, ha, hd,
    DropHandler.DefaultDropLeaveEvent, DropHandler.DefaultDropReleaseEvent,
    DropHandler.DefaultDropAcceptEvent, DropHandler.DefaultDropDenyEvent]

/-- Witness for the amended C4 at a concrete handler and event. -/
theorem drop_event_terminal_defaults_witness :
    (mkDropHandler [] false).onDropLeaveEvent = none ∧
    (((DropHandler.HandleDropLeaveEvent (mkDropHandler [] false) (zeroState "s")
        (sampleDrop DropEventType.dropLeave true)).1.isAboveDrop = false ∧
      (DropHandler.HandleDropLeaveEvent (mkDropHandler [] false) (zeroState "s")
        (sampleDrop DropEventType.dropLeave true)).1.isValidDrop =
        (sampleDrop DropEventType.dropLeave true).acceptable) ∧
     ((DropHandler.HandleDropReleaseEvent (mkDropHandler [] false) (zeroState "s")
        (sampleDrop DropEventType.dropLeave true)).1.isAboveDrop = false ∧
      (DropHandler.HandleDropReleaseEvent (mkDropHandler [] false) (zeroState "s")
        (sampleDrop DropEventType.dropLeave true)).1.isValidDrop = false) ∧
     ((DropHandler.HandleDropAcceptEvent (mkDropHandler [] false) (zeroState "s")
        (sampleDrop DropEventType.dropLeave true)).1.isAboveDrop = false ∧
      (DropHandler.HandleDropAcceptEvent (mkDropHandler [] false) (zeroState "s")
        (sampleDrop DropEventType.dropLeave true)).1.isValidDrop = false) ∧
     ((DropHandler.HandleDropDenyEvent (mkDropHandler [] false) (zeroState "s")
        (sampleDrop DropEventType.dropLeave true)).1.isAboveDrop = false ∧
      (DropHandler.HandleDropDenyEvent (mkDropHandler [] false) (zeroState "s")
        (sampleDrop DropEventType.dropLeave true)).1.isValidDrop = false)) :=
  ⟨rfl, drop_event_terminal_defaults _ _ _ rfl rfl rfl rfl⟩

/-- C10: `HandleDropHoverEvent` branches on `onDropEnterEvent`: when that
field is set and `onDropHoverEvent` is nil the call panics (`none`); when
`onDropEnterEvent` is nil the default external drop-hover behavior runs,
whatever `onDropHoverEvent` holds, so a custom hover-event hook alone is
never invoked. -/
theorem drop_hover_event_branch_mismatch (h : DropHandler) (s : InteractionState)
    (ev : DropEvent) :
    (h.onDropEnterEvent.isSome → h.onDropHoverEvent = none →
      DropHandler.HandleDropHoverEvent h s ev = none) ∧
    (h.onDropEnterEvent = none →
      DropHandler.HandleDropHoverEvent h s ev =
        some (DropHandler.DefaultDropHoverEvent h s ev)) := by
  constructor
  · intro h1 h2
    simp [DropHandler.HandleDropHoverEvent, h1, h2]
  · intro h1
    simp [DropHandler.HandleDropHoverEvent, h1]

/-- Witness for C10: with only the enter-event hook set the hover dispatch
hits the nil-call branch; with only the hover-event hook set the default
runs (its result leaves `isSelected` clear, so the custom hook did not
run). -/
theorem drop_hover_event_branch_mismatch_witness :
    DropHandler.HandleDropHoverEvent dropHandlerEnterEventOnly (zeroState "a")
        (sampleDrop DropEventType.dropHover true) = none ∧
    DropHandler.HandleDropHoverEvent dropHandlerHoverEventOnly (zeroState "a")
        (sampleDrop DropEventType.dropHover true) =
      some (DropHandler.DefaultDropHoverEvent dropHandlerHoverEventOnly (zeroState "a")
        (sampleDrop DropEventType.dropHover true)) :=
  ⟨(drop_hover_event_branch_mismatch _ _ _).1 rfl rfl,
   (drop_hover_event_branch_mismatch _ _ _).2 rfl⟩

/-- C5: with the default local drop behaviors and emission enabled, a local
drop-release dispatches exactly one accept event and no deny event when the
drag is acceptable, exactly one deny and no accept otherwise, and in both
cases the final state has `isBelowDrop = false` and `isValidDrop = false`. -/
theorem drop_release_dispatch_exclusive (h : DropHandler) (s : InteractionState)
    (de : DragEvent)
    (h1 : h.onDropRelease = none) (h2 : h.onDropAccept = none)
    (h3 : h.onDropDeny = none) (h4 : h.isAcceptable = none)
    (h5 : h.emitMessages = true) :
    ((DropHandler.DefaultIsAcceptable h s de = true →
      (runCmds (DropHandler.HandleDropRelease h s de).2
          (DropHandler.HandleDropRelease h s de).1).countP isDropAcceptMsg = 1 ∧
      (runCmds (DropHandler.HandleDropRelease h s de).2
          (DropHandler.HandleDropRelease h s de).1).countP isDropDenyMsg = 0) ∧
     (DropHandler.DefaultIsAcceptable h s de = false →
      (runCmds (DropHandler.HandleDropRelease h s de).2
          (DropHandler.HandleDropRelease h s de).1).countP isDropAcceptMsg = 0 ∧
      (runCmds (DropHandler.HandleDropRelease h s de).2
          (DropHandler.HandleDropRelease h s de).1).countP isDropDenyMsg = 1)) ∧
    (DropHandler.HandleDropRelease h s de).1.isBelowDrop = false ∧
    (DropHandler.HandleDropRelease h s de).1.isValidDrop = false := by
  have hacc : DropHandler.HandleIsAcceptable h s de = DropHandler.DefaultIsAcceptable h s de := by
    simp [DropHandler.HandleIsAcceptable, h4]
  cases hda : DropHandler.DefaultIsAcceptable h s de <;>
    simp [DropHandler.HandleDropRelease, DropHandler.DefaultDropRelease, h1, h2, h3, h5,
      hacc, hda, DropHandler.HandleDropAccept, DropHandler.HandleDropDeny,
      DropHandler.DefaultDropAccept, DropHandler.DefaultDropDeny,
      runCmds, isDropAcceptMsg, isDropDenyMsg, List.countP_cons, List.countP_nil]

/-- Witness for C5 at a concrete handler, state and acceptable drag. -/
theorem drop_release_dispatch_exclusive_witness :
    dropHandlerEmit.onDropRelease = none ∧
    (((DropHandler.DefaultIsAcceptable dropHandlerEmit belowValidState (sampleDrag "file") = true →
      (runCmds (DropHandler.HandleDropRelease dropHandlerEmit belowValidState (sampleDrag "file")).2
          (DropHandler.HandleDropRelease dropHandlerEmit belowValidState (sampleDrag "file")).1).countP isDropAcceptMsg = 1 ∧
      (runCmds (DropHandler.HandleDropRelease dropHandlerEmit belowValidState (sampleDrag "file")).2
          (DropHandler.HandleDropRelease dropHandlerEmit belowValidState (sampleDrag "file")).1).countP isDropDenyMsg = 0) ∧
     (DropHandler.DefaultIsAcceptable dropHandlerEmit belowValidState (sampleDrag "file") = false →
      (runCmds (DropHandler.HandleDropRelease dropHandlerEmit belowValidState (sampleDrag "file")).2
          (DropHandler.HandleDropRelease dropHandlerEmit belowValidState (sampleDrag "file")).1).countP isDropAcceptMsg = 0 ∧
      (runCmds (DropHandler.HandleDropRelease dropHandlerEmit belowValidState (sampleDrag "file")).2
          (DropHandler.HandleDropRelease dropHandlerEmit belowValidState (sampleDrag "file")).1).countP isDropDenyMsg = 1)) ∧
    (DropHandler.HandleDropRelease dropHandlerEmit belowValidState (sampleDrag "file")).1.isBelowDrop = false ∧
    (DropHandler.HandleDropRelease dropHandlerEmit belowValidState (sampleDrag "file")).1.isValidDrop = false) :=
  ⟨rfl, drop_release_dispatch_exclusive _ _ _ rfl rfl rfl rfl rfl⟩

/-- C1 evaluation: `HandleExternalEvent` guards on `LocalHandler`, not
`ExternalHandler`.  With only `ExternalHandler` set it runs the default
external routing and the hook's effect (selecting the element) never
happens; with only `LocalHandler` set it calls the nil `ExternalHandler`
and panics. -/
theorem external_override_guard_mismatch :
    Interactable.HandleExternalEvent externalOnlyElement samplePress =
      some (externalOnlyElement, []) ∧
    (markSelectedMouseHook externalOnlyElement.state samplePress).1.isSelected = true ∧
    externalOnlyElement.state.isSelected = false ∧
    Interactable.HandleExternalEvent localOnlyElement samplePress = none :=
  ⟨rfl, rfl, rfl, rfl⟩

/-- C6: with the local override unset, click and drag configured with
default behaviors, a press inside bounds selects the element, starts a
drag, records the drag origin at the press coordinates and zeroes the drag
offset, all in one `HandleMouseMsg` call. -/
theorem press_click_drag_chain (zone : String → MouseMsg → Bool) (i : Interactable)
    (m : MouseMsg) (ch : ClickHandler) (dh : DragHandler)
    (hl : i.localHandler = none) (hc : i.click = some ch) (hcc : ch.onClick = none)
    (hd : i.drag = some dh) (hdd : dh.onDragStart = none)
    (ha : m.action = MouseAction.press)
    (hin : Interactable.insideOf zone i m = true) :
    (Interactable.HandleMouseMsg zone i m).1.state.isSelected = true ∧
    (Interactable.HandleMouseMsg zone i m).1.state.isDragging = true ∧
    (Interactable.HandleMouseMsg zone i m).1.state.dragOrigin = (⟨m.x, m.y⟩ : Point) ∧
    (Interactable.HandleMouseMsg zone i m).1.state.dragOffset = (⟨0, 0⟩ : Point) := by
  simp [Interactable.HandleMouseMsg, Interactable.DefaultLocalHandler, hl, hc, hd,
    hcc, hdd, ha, hin, ClickHandler.HandleClick, ClickHandler.DefaultClick,
    DragHandler.HandleDragStart, DragHandler.DefaultDragStart]

/-- Witness for C6: a press at (2,3) with an everywhere-true bounds
resolver. -/
theorem press_click_drag_chain_witness :
    clickDragElement.localHandler = none ∧
    Interactable.insideOf (fun _ _ => true) clickDragElement samplePress = true ∧
    ((Interactable.HandleMouseMsg (fun _ _ => true) clickDragElement samplePress).1.state.isSelected = true ∧
     (Interactable.HandleMouseMsg (fun _ _ => true) clickDragElement samplePress).1.state.isDragging = true ∧
     (Interactable.HandleMouseMsg (fun _ _ => true) clickDragElement samplePress).1.state.dragOrigin =
       (⟨samplePress.x, samplePress.y⟩ : Point) ∧
     (Interactable.HandleMouseMsg (fun _ _ => true) clickDragElement samplePress).1.state.dragOffset =
       (⟨0, 0⟩ : Point)) :=
  ⟨rfl, rfl,
   press_click_drag_chain (fun _ _ => true) clickDragElement samplePress
     (mkClickHandler false) (mkDragHandler false) rfl rfl rfl rfl rfl rfl rfl⟩

/-- C7: with the local override unset, drag configured with the default
end behavior, and a drag in progress, a release message ends the drag for
every bounds resolver and every pointer position. -/
theorem release_ends_drag (zone : String → MouseMsg → Bool) (i : Interactable)
    (m : MouseMsg) (dh : DragHandler)
    (hl : i.localHandler = none) (hd : i.drag = some dh) (hde : dh.onDragEnd = none)
    (hdr : i.state.isDragging = true) (ha : m.action = MouseAction.release) :
    (Interactable.HandleMouseMsg zone i m).1.state.isDragging = false := by
  simp [Interactable.HandleMouseMsg, Interactable.DefaultLocalHandler, hl, hd, hde,
    hdr, ha, DragHandler.HandleDragEnd, DragHandler.DefaultDragEnd]

/-- Witness for C7: a release outside bounds (the resolver is everywhere
false) still ends the drag. -/
theorem release_ends_drag_witness :
    draggingElement.localHandler = none ∧
    draggingElement.state.isDragging = true ∧
    (Interactable.HandleMouseMsg (fun _ _ => false) draggingElement
      { action := MouseAction.release, x := 99, y := 99 }).1.state.isDragging = false :=
  ⟨rfl, rfl,
   release_ends_drag (fun _ _ => false) draggingElement
     { action := MouseAction.release, x := 99, y := 99 }
     (mkDragHandler false) rfl rfl rfl rfl rfl⟩

/-- C9: with the local override unset, hover configured with default
behaviors and emission on, no drag in progress, a move message inside
bounds while already hovered leaves the element unchanged and emits
exactly the repeat hover event — no enter event; delivering the same
message again gives the same state and the same single emission. -/
theorem hover_repeat_idempotent (zone : String → MouseMsg → Bool) (i : Interactable)
    (m : MouseMsg) (hh : HoverHandler)
    (hl : i.localHandler = none) (hhov : i.hover = some hh)
    (he : hh.onMouseEnter = none) (hho : hh.onMouseHover = none)
    (hem : hh.emitMessages = true)
    (hH : i.state.isHovered = true) (hD : i.state.isDragging = false)
    (hin : Interactable.insideOf zone i m = true) (ha : m.action = MouseAction.motion) :
    (Interactable.HandleMouseMsg zone i m).1 = i ∧
    runCmds (Interactable.HandleMouseMsg zone i m).2
        (Interactable.HandleMouseMsg zone i m).1.state =
      [Msg.hover { id := i.state.id, eventType := HoverEventType.mouseHover, mouseMsg := m }] ∧
    (Interactable.HandleMouseMsg zone (Interactable.HandleMouseMsg zone i m).1 m).1 =
      (Interactable.HandleMouseMsg zone i m).1 ∧
    runCmds (Interactable.HandleMouseMsg zone (Interactable.HandleMouseMsg zone i m).1 m).2
        (Interactable.HandleMouseMsg zone (Interactable.HandleMouseMsg zone i m).1 m).1.state =
      runCmds (Interactable.HandleMouseMsg zone i m).2
        (Interactable.HandleMouseMsg zone i m).1.state := by
  have key : Interactable.HandleMouseMsg zone i m =
      (i, [fun st => Msg.hover { id := st.id, eventType := HoverEventType.mouseHover, mouseMsg := m }]) := by
    obtain ⟨s, ck, hv, dr, dp, cke, hoe, dre, droe, iins, lh, eh⟩ := i
    obtain ⟨sid, ssel, shov, sdrag, sori, soff, svd, sad, sbd⟩ := s
    simp only at hl hhov hH hD hin ⊢
    subst hl hhov hH hD
    rcases dr with _ | dh <;>
      simp [Interactable.HandleMouseMsg, Interactable.DefaultLocalHandler, he, hho,
        hem, hin, ha, HoverHandler.HandleMouseHover, HoverHandler.DefaultMouseHover]
  exact ⟨by rw [key], by simp [key, runCmds], by simp [key], by simp [key]⟩

/-- Witness for C9 at a concrete hovered element. -/
theorem hover_repeat_idempotent_witness :
    hoveredElement.state.isHovered = true ∧
    ((Interactable.HandleMouseMsg (fun _ _ => true) hoveredElement sampleMotion).1 = hoveredElement ∧
     runCmds (Interactable.HandleMouseMsg (fun _ _ => true) hoveredElement sampleMotion).2
         (Interactable.HandleMouseMsg (fun _ _ => true) hoveredElement sampleMotion).1.state =
       [Msg.hover { id := hoveredElement.state.id, eventType := HoverEventType.mouseHover
                    mouseMsg := sampleMotion }] ∧
     (Interactable.HandleMouseMsg (fun _ _ => true)
         (Interactable.HandleMouseMsg (fun _ _ => true) hoveredElement sampleMotion).1 sampleMotion).1 =
       (Interactable.HandleMouseMsg (fun _ _ => true) hoveredElement sampleMotion).1 ∧
     runCmds (Interactable.HandleMouseMsg (fun _ _ => true)
         (Interactable.HandleMouseMsg (fun _ _ => true) hoveredElement sampleMotion).1 sampleMotion).2
         (Interactable.HandleMouseMsg (fun _ _ => true)
           (Interactable.HandleMouseMsg (fun _ _ => true) hoveredElement sampleMotion).1 sampleMotion).1.state =
       runCmds (Interactable.HandleMouseMsg (fun _ _ => true) hoveredElement sampleMotion).2
         (Interactable.HandleMouseMsg (fun _ _ => true) hoveredElement sampleMotion).1.state) :=
  ⟨rfl,
   hover_repeat_idempotent (fun _ _ => true) hoveredElement sampleMotion
     (mkHoverHandler true) rfl rfl rfl rfl rfl rfl rfl rfl rfl⟩
